import Mathlib

/-
Verification of the liquid-glass-react distortion pipeline (src/index.tsx):
the displacement-map selection (getMap), the SVG filter graph assembled by
the GlassFilter component, and the pointer transform engine of the
LiquidGlass component (directional scale, fade-in factor, elastic
translation, pressed-state override, overLight halving).

The filter graph and prop plumbing are exact rational arithmetic (the source
only multiplies, adds and takes max), embedded over ℚ.  The pointer engine
uses Math.sqrt, so it is embedded over ℝ with Real.sqrt.
-/

namespace LiquidGlassReact

/-- Modelled from the spec: the pre-authored "standard" displacement asset
exported by ./utils, a module not included under src.  The spec only fixes
that it is a constant, pre-authored, usable (non-empty) image reference. -/
def displacementMap : String := "data:image/png;base64,standard-displacement-asset"

/-- Modelled from the spec: the pre-authored "polar" displacement asset
exported by ./utils (not included under src). -/
def polarDisplacementMap : String := "data:image/png;base64,polar-displacement-asset"

/-- Modelled from the spec: the pre-authored "prominent" displacement asset
exported by ./utils (not included under src). -/
def prominentDisplacementMap : String := "data:image/png;base64,prominent-displacement-asset"

/-- Embedding of getMap (src/index.tsx lines 19-32).  The TS annotation
restricts mode to four literal strings, but the switch runs on the runtime
string and its default branch throws; we embed the runtime behaviour over
String, with the throw as Except.error.  An undefined shaderMapUrl is none;
the JS truthiness test shaderMapUrl || displacementMap treats the empty
string as absent. -/
def getMap (mode : String) (shaderMapUrl : Option String) : Except String String :=
  if mode = "standard" then Except.ok displacementMap
  else if mode = "polar" then Except.ok polarDisplacementMap
  else if mode = "prominent" then Except.ok prominentDisplacementMap
  else if mode = "shader" then
    Except.ok (match shaderMapUrl with
      | some u => if u = "" then displacementMap else u
      | none => displacementMap)
  else Except.error ("Invalid mode: " ++ mode)

/-- The four values of the mode union type of the TS source. -/
inductive Mode
  | standard
  | polar
  | prominent
  | shader
  deriving DecidableEq

/-- The runtime string carried by each mode value. -/
def Mode.toStr : Mode → String
  | .standard => "standard"
  | .polar => "polar"
  | .prominent => "prominent"
  | .shader => "shader"

/-- The per-channel sign used by the three feDisplacementMap stages:
the inline conditional (mode === "shader" ? 1 : -1) of the source. -/
def modeSign (m : Mode) : ℚ := if m = Mode.shader then 1 else -1

/-- Channel selector attribute values of feDisplacementMap. -/
inductive ChannelSel
  | R
  | G
  | B
  | A
  deriving DecidableEq

/-- One SVG filter primitive, holding exactly the attributes the source sets
on it.  feImage keeps its percentage width/height as strings; the
feComponentTransfer constructor records the feFuncA type attribute
("discrete" or "table") together with its tableValues. -/
inductive FEPrim
  | feImage (x y : ℚ) (width height : String) (href : Except String String) (result : String)
  | feColorMatrix (input : String) (values : List ℚ) (result : String)
  | feComponentTransfer (input : String) (funcType : String) (tableValues : List ℚ) (result : String)
  | feOffset (input : String) (dx dy : ℚ) (result : String)
  | feDisplacementMap (input in2 : String) (scale : ℚ)
      (xChannelSelector yChannelSelector : ChannelSel) (result : String)
  | feBlend (input in2 : String) (blendMode : String) (result : String)
  | feGaussianBlur (input : String) (stdDeviation : ℚ) (result : String)
  | feComposite (input in2 : String) (op : String) (result : String)

/-- The result attribute of a primitive (empty when the source sets none). -/
def FEPrim.resultOf : FEPrim → String
  | .feImage _ _ _ _ _ r => r
  | .feColorMatrix _ _ r => r
  | .feComponentTransfer _ _ _ r => r
  | .feOffset _ _ _ r => r
  | .feDisplacementMap _ _ _ _ _ r => r
  | .feBlend _ _ _ r => r
  | .feGaussianBlur _ _ r => r
  | .feComposite _ _ _ r => r

/-- The filter element built by the GlassFilter component: its region
attributes, the middle stop offset of the edge-mask radial gradient, and the
ordered list of primitives. -/
structure GlassFilterDef where
  filterX : ℚ
  filterY : ℚ
  filterWidth : ℚ
  filterHeight : ℚ
  gradientMidOffset : ℚ
  primitives : List FEPrim

/-- Embedding of the GlassFilter component (src/index.tsx lines 35-137),
stage for stage in source order. -/
def GlassFilter (displacementScale aberrationIntensity width height : ℚ)
    (mode : Mode) (shaderMapUrl : Option String) : GlassFilterDef :=
  { filterX := -width * 0.1
    filterY := -height * 0.1
    filterWidth := width * 1.2
    filterHeight := height * 1.2
    gradientMidOffset := max 30 (80 - aberrationIntensity * 2)
    primitives := [
      .feImage 0 0 "100%" "100%" (getMap mode.toStr shaderMapUrl) "DISPLACEMENT_MAP",
      .feColorMatrix "DISPLACEMENT_MAP"
        [0.3, 0.3, 0.3, 0, 0, 0.3, 0.3, 0.3, 0, 0, 0.3, 0.3, 0.3, 0, 0, 0, 0, 0, 1, 0]
        "EDGE_INTENSITY",
      .feComponentTransfer "EDGE_INTENSITY" "discrete"
        [0, aberrationIntensity * 0.05, 1] "EDGE_MASK",
      .feOffset "SourceGraphic" 0 0 "CENTER_ORIGINAL",
      .feDisplacementMap "SourceGraphic" "DISPLACEMENT_MAP"
        (displacementScale * (if mode = Mode.shader then 1 else -1))
        ChannelSel.R ChannelSel.B "RED_DISPLACED",
      .feColorMatrix "RED_DISPLACED"
        [1, 0, 0, 0, 0, 0, 0, 0, 0, 0, 0, 0, 0, 0, 0, 0, 0, 0, 1, 0] "RED_CHANNEL",
      .feDisplacementMap "SourceGraphic" "DISPLACEMENT_MAP"
        (displacementScale * ((if mode = Mode.shader then 1 else -1) - aberrationIntensity * 0.05))
        ChannelSel.R ChannelSel.B "GREEN_DISPLACED",
      .feColorMatrix "GREEN_DISPLACED"
        [0, 0, 0, 0, 0, 0, 1, 0, 0, 0, 0, 0, 0, 0, 0, 0, 0, 0, 1, 0] "GREEN_CHANNEL",
      .feDisplacementMap "SourceGraphic" "DISPLACEMENT_MAP"
        (displacementScale * ((if mode = Mode.shader then 1 else -1) - aberrationIntensity * 0.1))
        ChannelSel.R ChannelSel.B "BLUE_DISPLACED",
      .feColorMatrix "BLUE_DISPLACED"
        [0, 0, 0, 0, 0, 0, 0, 0, 0, 0, 0, 0, 1, 0, 0, 0, 0, 0, 1, 0] "BLUE_CHANNEL",
      .feBlend "GREEN_CHANNEL" "BLUE_CHANNEL" "screen" "GB_COMBINED",
      .feBlend "RED_CHANNEL" "GB_COMBINED" "screen" "RGB_COMBINED",
      .feGaussianBlur "RGB_COMBINED" (max 0.1 (0.5 - aberrationIntensity * 0.1)) "ABERRATED_BLURRED",
      .feComposite "ABERRATED_BLURRED" "EDGE_MASK" "in" "EDGE_ABERRATION",
      .feComponentTransfer "EDGE_MASK" "table" [1, 0] "INVERTED_MASK",
      .feComposite "CENTER_ORIGINAL" "INVERTED_MASK" "in" "CENTER_CLEAN",
      .feComposite "EDGE_ABERRATION" "CENTER_CLEAN" "over" ""] }

/-- The first primitive of the filter whose result attribute is r. -/
def stageFor (g : GlassFilterDef) (r : String) : Option FEPrim :=
  g.primitives.find? (fun p => p.resultOf == r)

/-- Embedding of the props LiquidGlass hands to GlassContainer
(src/index.tsx lines 639-659) composed with GlassContainer forwarding them
unchanged to GlassFilter (line 220): overLight halves the displacement scale
before it reaches the filter, and nothing else changes. -/
def LiquidGlassFilter (displacementScale aberrationIntensity width height : ℚ)
    (mode : Mode) (shaderMapUrl : Option String) (overLight : Bool) : GlassFilterDef :=
  GlassFilter (if overLight then displacementScale * 0.5 else displacementScale)
    aberrationIntensity width height mode shaderMapUrl

/-- A pointer position in client coordinates (globalMousePos). -/
structure Pos where
  x : ℝ
  y : ℝ

/-- The bounding client rect of the mounted glass element.  The engine's
early return for an unmounted element (glassRef.current null) is outside
this embedding: the functions below take the rect of a mounted element. -/
structure Rect where
  left : ℝ
  top : ℝ
  width : ℝ
  height : ℝ

/-- The measured glass size state (glassSize). -/
structure Size where
  width : ℝ
  height : ℝ

noncomputable section

/-- pillCenterX = rect.left + rect.width / 2. -/
def pillCenterX (rect : Rect) : ℝ := rect.left + rect.width / 2

/-- pillCenterY = rect.top + rect.height / 2. -/
def pillCenterY (rect : Rect) : ℝ := rect.top + rect.height / 2

/-- deltaX = globalMousePos.x - pillCenterX. -/
def deltaX (rect : Rect) (pos : Pos) : ℝ := pos.x - pillCenterX rect

/-- deltaY = globalMousePos.y - pillCenterY. -/
def deltaY (rect : Rect) (pos : Pos) : ℝ := pos.y - pillCenterY rect

/-- edgeDistanceX = Math.max(0, Math.abs(deltaX) - pillWidth / 2), where the
pill width is the measured glassSize width. -/
def edgeDistanceX (rect : Rect) (size : Size) (pos : Pos) : ℝ :=
  max 0 (|deltaX rect pos| - size.width / 2)

/-- edgeDistanceY = Math.max(0, Math.abs(deltaY) - pillHeight / 2). -/
def edgeDistanceY (rect : Rect) (size : Size) (pos : Pos) : ℝ :=
  max 0 (|deltaY rect pos| - size.height / 2)

/-- edgeDistance = Math.sqrt(edgeDistanceX * edgeDistanceX + edgeDistanceY * edgeDistanceY). -/
def edgeDistance (rect : Rect) (size : Size) (pos : Pos) : ℝ :=
  Real.sqrt (edgeDistanceX rect size pos * edgeDistanceX rect size pos +
    edgeDistanceY rect size pos * edgeDistanceY rect size pos)

/-- The fixed activation zone radius (const activationZone = 200). -/
def activationZone : ℝ := 200

/-- centerDistance = Math.sqrt(deltaX * deltaX + deltaY * deltaY). -/
def centerDistance (rect : Rect) (pos : Pos) : ℝ :=
  Real.sqrt (deltaX rect pos * deltaX rect pos + deltaY rect pos * deltaY rect pos)

/-- normalizedX = deltaX / centerDistance. -/
def normalizedX (rect : Rect) (pos : Pos) : ℝ := deltaX rect pos / centerDistance rect pos

/-- normalizedY = deltaY / centerDistance. -/
def normalizedY (rect : Rect) (pos : Pos) : ℝ := deltaY rect pos / centerDistance rect pos

/-- stretchIntensity = Math.min(centerDistance / 300, 1) * elasticity * fadeInFactor,
with fadeInFactor the inline 1 - edgeDistance / activationZone of
calculateDirectionalScale (only reached inside the activation zone). -/
def stretchIntensity (rect : Rect) (size : Size) (pos : Pos) (elasticity : ℝ) : ℝ :=
  min (centerDistance rect pos / 300) 1 * elasticity *
    (1 - edgeDistance rect size pos / activationZone)

/-- The raw scaleX of calculateDirectionalScale before the 0.8 floor. -/
def scaleXraw (rect : Rect) (size : Size) (pos : Pos) (elasticity : ℝ) : ℝ :=
  1 + |normalizedX rect pos| * stretchIntensity rect size pos elasticity * 0.3 -
    |normalizedY rect pos| * stretchIntensity rect size pos elasticity * 0.15

/-- The raw scaleY of calculateDirectionalScale before the 0.8 floor. -/
def scaleYraw (rect : Rect) (size : Size) (pos : Pos) (elasticity : ℝ) : ℝ :=
  1 + |normalizedY rect pos| * stretchIntensity rect size pos elasticity * 0.3 -
    |normalizedX rect pos| * stretchIntensity rect size pos elasticity * 0.15

/-- The transform string calculateDirectionalScale returns: scale s embeds
the uniform string scale(s) (the guards return scale(1); the pressed-state
override uses scale(0.96)), and scaleXY embeds scaleX(sx) scaleY(sy). -/
inductive ScaleSpec
  | scale (s : ℝ)
  | scaleXY (sx sy : ℝ)

/-- The horizontal scale a ScaleSpec applies. -/
def ScaleSpec.sx : ScaleSpec → ℝ
  | .scale s => s
  | .scaleXY a _ => a

/-- The vertical scale a ScaleSpec applies. -/
def ScaleSpec.sy : ScaleSpec → ℝ
  | .scale s => s
  | .scaleXY _ b => b

/-- Embedding of calculateDirectionalScale (src/index.tsx lines 378-427).
The JS truthiness guard !globalMousePos.x || !globalMousePos.y is the test
for a zero coordinate. -/
def calculateDirectionalScale (rect : Rect) (size : Size) (pos : Pos) (elasticity : ℝ) :
    ScaleSpec :=
  if pos.x = 0 ∨ pos.y = 0 then ScaleSpec.scale 1
  else if edgeDistance rect size pos > activationZone then ScaleSpec.scale 1
  else if centerDistance rect pos = 0 then ScaleSpec.scale 1
  else ScaleSpec.scaleXY (max 0.8 (scaleXraw rect size pos elasticity))
    (max 0.8 (scaleYraw rect size pos elasticity))

/-- Embedding of calculateFadeInFactor (src/index.tsx lines 430-447). -/
def calculateFadeInFactor (rect : Rect) (size : Size) (pos : Pos) : ℝ :=
  if pos.x = 0 ∨ pos.y = 0 then 0
  else if edgeDistance rect size pos > activationZone then 0
  else 1 - edgeDistance rect size pos / activationZone

/-- Embedding of calculateElasticTranslation (src/index.tsx lines 450-464). -/
def calculateElasticTranslation (rect : Rect) (size : Size) (pos : Pos) (elasticity : ℝ) :
    Pos :=
  ⟨(pos.x - pillCenterX rect) * elasticity * 0.1 * calculateFadeInFactor rect size pos,
   (pos.y - pillCenterY rect) * elasticity * 0.1 * calculateFadeInFactor rect size pos⟩

/-- Embedding of the composed transform of src/index.tsx line 518: the scale
part is the fixed scale(0.96) while isActive holds and a click handler is
present, else the directional scale; the elastic translation is appended in
both cases. -/
def dynamicTransform (rect : Rect) (size : Size) (pos : Pos) (elasticity : ℝ)
    (isActive hasOnClick : Bool) : ScaleSpec × Pos :=
  (if isActive && hasOnClick then ScaleSpec.scale 0.96
   else calculateDirectionalScale rect size pos elasticity,
   calculateElasticTranslation rect size pos elasticity)

/-- A concrete rect for witness instantiations: a 100 by 100 box centred at
the client origin. -/
def wRect : Rect := ⟨-50, -50, 100, 100⟩

/-- A concrete measured size matching wRect. -/
def wSize : Size := ⟨100, 100⟩

/-- A concrete pointer position 450 units right of the right edge of wRect
(both coordinates non-zero, so the truthiness guard does not fire). -/
def wPos : Pos := ⟨500, 1⟩

end

/-- C1: the three per-channel feDisplacementMap stages of the filter graph
use scales red = s * sign, green = s * (sign - a * 0.05) and
blue = s * (sign - a * 0.1), where the sign is 1 in shader mode and -1 in
the three static modes, and every stage drives X from the R channel and Y
from the B channel. -/
theorem c1_channel_displacement_stages (s a w h : ℚ) (mode : Mode) (u : Option String) :
    stageFor (GlassFilter s a w h mode u) "RED_DISPLACED"
      = some (.feDisplacementMap "SourceGraphic" "DISPLACEMENT_MAP" (s * modeSign mode)
          ChannelSel.R ChannelSel.B "RED_DISPLACED") ∧
    stageFor (GlassFilter s a w h mode u) "GREEN_DISPLACED"
      = some (.feDisplacementMap "SourceGraphic" "DISPLACEMENT_MAP"
          (s * (modeSign mode - a * 0.05)) ChannelSel.R ChannelSel.B "GREEN_DISPLACED") ∧
    stageFor (GlassFilter s a w h mode u) "BLUE_DISPLACED"
      = some (.feDisplacementMap "SourceGraphic" "DISPLACEMENT_MAP"
          (s * (modeSign mode - a * 0.1)) ChannelSel.R ChannelSel.B "BLUE_DISPLACED") ∧
    modeSign Mode.shader = 1 ∧ modeSign Mode.standard = -1 ∧
    modeSign Mode.polar = -1 ∧ modeSign Mode.prominent = -1 := by
  refine ⟨?_, ?_, ?_, by simp [modeSign], by simp [modeSign], by simp [modeSign],
    by simp [modeSign]⟩ <;>
    simp [stageFor, GlassFilter, FEPrim.resultOf, modeSign, List.find?]

/-- C6: the edge-mask threshold stage is a discrete feFuncA lookup with
exactly the control points 0, a * 0.05, 1, and the softening blur has
stdDeviation max 0.1 (0.5 - a * 0.1); instantiating a = 2 gives the table
0, 0.1, 1 and stdDeviation 0.3, and a = 0 gives midpoint 0. -/
theorem c6_edge_mask_and_blur (s a w h : ℚ) (mode : Mode) (u : Option String) :
    stageFor (GlassFilter s a w h mode u) "EDGE_MASK"
      = some (.feComponentTransfer "EDGE_INTENSITY" "discrete" [0, a * 0.05, 1] "EDGE_MASK") ∧
    stageFor (GlassFilter s a w h mode u) "ABERRATED_BLURRED"
      = some (.feGaussianBlur "RGB_COMBINED" (max 0.1 (0.5 - a * 0.1)) "ABERRATED_BLURRED") ∧
    stageFor (GlassFilter s 2 w h mode u) "EDGE_MASK"
      = some (.feComponentTransfer "EDGE_INTENSITY" "discrete" [0, 0.1, 1] "EDGE_MASK") ∧
    stageFor (GlassFilter s 2 w h mode u) "ABERRATED_BLURRED"
      = some (.feGaussianBlur "RGB_COMBINED" 0.3 "ABERRATED_BLURRED") ∧
    stageFor (GlassFilter s 0 w h mode u) "EDGE_MASK"
      = some (.feComponentTransfer "EDGE_INTENSITY" "discrete" [0, 0, 1] "EDGE_MASK") := by
  refine ⟨?_, ?_, ?_, ?_, ?_⟩ <;>
    simp [stageFor, GlassFilter, FEPrim.resultOf, List.find?] <;> norm_num

/-- C7: the filter region is the glass box padded by ten percent on each
side: x = -0.1 w, y = -0.1 h, width 1.2 w, height 1.2 h. -/
theorem c7_filter_region (s a w h : ℚ) (mode : Mode) (u : Option String) :
    (GlassFilter s a w h mode u).filterX = -0.1 * w ∧
    (GlassFilter s a w h mode u).filterY = -0.1 * h ∧
    (GlassFilter s a w h mode u).filterWidth = 1.2 * w ∧
    (GlassFilter s a w h mode u).filterHeight = 1.2 * h := by
  refine ⟨?_, ?_, ?_, ?_⟩ <;> simp [GlassFilter] <;> ring

/-- C10: with overLight set, the displacement scale reaching the filter is
exactly half the configured one, and nothing else in the filter changes;
with overLight clear the configured value is forwarded unchanged. -/
theorem c10_overlight_halves_displacement (s a w h : ℚ) (mode : Mode) (u : Option String) :
    LiquidGlassFilter s a w h mode u true = GlassFilter (s * 0.5) a w h mode u ∧
    LiquidGlassFilter s a w h mode u false = GlassFilter s a w h mode u := by
  constructor <;> rfl

/-- C4: getMap returns the fixed pre-authored asset for each static mode,
independent of shaderMapUrl, and any unrecognized mode string makes it throw
the invalid-mode error instead of degrading silently. -/
theorem c4_getMap_static_and_invalid (m : String) (u : Option String)
    (hm : m ≠ "standard" ∧ m ≠ "polar" ∧ m ≠ "prominent" ∧ m ≠ "shader") :
    getMap "standard" u = Except.ok displacementMap ∧
    getMap "polar" u = Except.ok polarDisplacementMap ∧
    getMap "prominent" u = Except.ok prominentDisplacementMap ∧
    getMap m u = Except.error ("Invalid mode: " ++ m) := by
  obtain ⟨h1, h2, h3, h4⟩ := hm
  refine ⟨by simp [getMap], by simp [getMap], by simp [getMap], ?_⟩
  simp [getMap, h1, h2, h3, h4]

/-- Witness for C4 at the concrete unrecognized mode string "liquid". -/
theorem c4_getMap_static_and_invalid_witness :
    getMap "standard" (some "x") = Except.ok displacementMap ∧
    getMap "polar" (some "x") = Except.ok polarDisplacementMap ∧
    getMap "prominent" (some "x") = Except.ok prominentDisplacementMap ∧
    getMap "liquid" (some "x") = Except.error ("Invalid mode: " ++ "liquid") :=
  c4_getMap_static_and_invalid "liquid" (some "x") (by decide)

/-- C5: in shader mode getMap returns the supplied shader map when one is
available, and falls back to the standard asset when none was generated,
including for the empty string; the returned reference is never empty. -/
theorem c5_shader_fallback (u : String) (hu : u ≠ "") :
    getMap "shader" (some u) = Except.ok u ∧
    getMap "shader" none = Except.ok displacementMap ∧
    getMap "shader" (some "") = Except.ok displacementMap ∧
    displacementMap ≠ "" := by
  refine ⟨?_, by simp [getMap], by simp [getMap], by simp [displacementMap]⟩
  simp [getMap, hu]

/-- Witness for C5 at a concrete non-empty generated shader map url. -/
theorem c5_shader_fallback_witness :
    getMap "shader" (some "data:image/png;base64,shader-map") =
      Except.ok "data:image/png;base64,shader-map" ∧
    getMap "shader" none = Except.ok displacementMap ∧
    getMap "shader" (some "") = Except.ok displacementMap ∧
    displacementMap ≠ "" :=
  c5_shader_fallback "data:image/png;base64,shader-map" (by decide)

/-- C2: when the pointer's distance to the nearest edge of the glass box
exceeds the 200 unit activation zone, the transform is the identity: the
directional scale is scale(1) and the elastic translation is (0, 0). -/
theorem c2_outside_activation_zone (rect : Rect) (size : Size) (p : Pos) (e : ℝ)
    (h : edgeDistance rect size p > 200) :
    calculateDirectionalScale rect size p e = ScaleSpec.scale 1 ∧
    calculateElasticTranslation rect size p e = ⟨0, 0⟩ := by
  have h' : edgeDistance rect size p > activationZone := h
  have hfade : calculateFadeInFactor rect size p = 0 := by
    unfold calculateFadeInFactor
    by_cases hg : p.x = 0 ∨ p.y = 0
    · rw [if_pos hg]
    · rw [if_neg hg, if_pos h']
  constructor
  · unfold calculateDirectionalScale
    by_cases hg : p.x = 0 ∨ p.y = 0
    · rw [if_pos hg]
    · rw [if_neg hg, if_pos h']
  · unfold calculateElasticTranslation
    rw [hfade]
    simp

/-- Witness for C2: the pointer wPos is 450 units from the nearest edge of
the box wRect and the transform is the identity there. -/
theorem c2_outside_activation_zone_witness :
    calculateDirectionalScale wRect wSize wPos 0.15 = ScaleSpec.scale 1 ∧
    calculateElasticTranslation wRect wSize wPos 0.15 = ⟨0, 0⟩ :=
  c2_outside_activation_zone wRect wSize wPos 0.15 (by
    have hx : edgeDistanceX wRect wSize wPos = 450 := by
      show max (0:ℝ) (|(500:ℝ) - (-50 + 100 / 2)| - 100 / 2) = 450
      rw [show (500:ℝ) - (-50 + 100 / 2) = 500 by norm_num]
      rw [abs_of_nonneg (by norm_num : (0:ℝ) ≤ 500)]
      rw [show (500:ℝ) - 100 / 2 = 450 by norm_num]
      exact max_eq_right (by norm_num)
    have hy : edgeDistanceY wRect wSize wPos = 0 := by
      show max (0:ℝ) (|(1:ℝ) - (-50 + 100 / 2)| - 100 / 2) = 0
      rw [show (1:ℝ) - (-50 + 100 / 2) = 1 by norm_num]
      rw [abs_of_nonneg (by norm_num : (0:ℝ) ≤ 1)]
      rw [show (1:ℝ) - 100 / 2 = -49 by norm_num]
      exact max_eq_left (by norm_num)
    show edgeDistance wRect wSize wPos > 200
    unfold edgeDistance
    rw [hx, hy]
    rw [show (450:ℝ) * 450 + 0 * 0 = 450 * 450 by ring]
    rw [Real.sqrt_mul_self (by norm_num : (0:ℝ) ≤ 450)]
    norm_num)

/-- C3: the scale components emitted by calculateDirectionalScale are never
below 0.8, for every pointer position, box, measured size and elasticity. -/
theorem c3_scale_floor (rect : Rect) (size : Size) (p : Pos) (e : ℝ) :
    0.8 ≤ (calculateDirectionalScale rect size p e).sx ∧
    0.8 ≤ (calculateDirectionalScale rect size p e).sy := by
  unfold calculateDirectionalScale
  by_cases hg : p.x = 0 ∨ p.y = 0
  · rw [if_pos hg]
    exact ⟨by norm_num [ScaleSpec.sx], by norm_num [ScaleSpec.sy]⟩
  · rw [if_neg hg]
    by_cases h2 : edgeDistance rect size p > activationZone
    · rw [if_pos h2]
      exact ⟨by norm_num [ScaleSpec.sx], by norm_num [ScaleSpec.sy]⟩
    · rw [if_neg h2]
      by_cases h3 : centerDistance rect p = 0
      · rw [if_pos h3]
        exact ⟨by norm_num [ScaleSpec.sx], by norm_num [ScaleSpec.sy]⟩
      · rw [if_neg h3]
        exact ⟨by simp [ScaleSpec.sx], by simp [ScaleSpec.sy]⟩

/-- C8: while the active press state is set and a click handler is present,
the composed transform's scale part is the fixed scale(0.96) instead of the
pointer-derived directional scale, and the elastic translation is still the
one returned by calculateElasticTranslation. -/
theorem c8_pressed_state_override (rect : Rect) (size : Size) (p : Pos) (e : ℝ) :
    (dynamicTransform rect size p e true true).1 = ScaleSpec.scale 0.96 ∧
    (dynamicTransform rect size p e true true).2 =
      calculateElasticTranslation rect size p e :=
  ⟨rfl, rfl⟩

/-- C9: a pointer coordinate equal to 0 trips the truthiness guard, so the
directional scale is the identity and the fade-in factor is 0 no matter what
the element geometry is. -/
theorem c9_zero_coordinate_identity (rect : Rect) (size : Size) (p : Pos) (e : ℝ)
    (h : p.x = 0 ∨ p.y = 0) :
    calculateDirectionalScale rect size p e = ScaleSpec.scale 1 ∧
    calculateFadeInFactor rect size p = 0 := by
  constructor
  · unfold calculateDirectionalScale
    rw [if_pos h]
  · unfold calculateFadeInFactor
    rw [if_pos h]

/-- Witness for C9 at the concrete pointer (0, 42), a pointer on the left
window edge. -/
theorem c9_zero_coordinate_identity_witness :
    calculateDirectionalScale wRect wSize ⟨0, 42⟩ 0.15 = ScaleSpec.scale 1 ∧
    calculateFadeInFactor wRect wSize ⟨0, 42⟩ = 0 :=
  c9_zero_coordinate_identity wRect wSize ⟨0, 42⟩ 0.15 (Or.inl rfl)

end LiquidGlassReact
